import Mathlib

/-!
Verification of the saintshub-main-server dashboard / auth pipeline.

The definitions below are a shallow embedding of the TypeScript source:
  - `src/routes/dashboardRoutes.ts` (nested-array deletion handlers),
  - `src/middleware/authenticateUser.ts` (`authenticateUser`, `isAdmin`),
  - `src/utils/validationSchemas.ts` + `src/middleware/validateRequest.ts`
    (signup validation),
  - `src/controllers/dashboardController.ts` (`getPublicChurchList`).

Express semantics that matter for fidelity and are reflected in the
embedding:
  - the first `res.status(..).json(..)` on a response object is delivered
    to the client; any later send on the same response throws
    `ERR_HTTP_HEADERS_SENT`, which aborts the (async) handler at that
    point — the thrown error reaches the error middleware but cannot
    change the already-delivered response;
  - `parseInt(s, 10)` returns NaN when `s` has no leading decimal digits
    (after an optional sign); otherwise it parses the maximal leading
    digit run and ignores any trailing garbage;
  - `arr.splice(start, 1)` coerces a NaN `start` to 0, treats a negative
    `start` as counting from the end (clamped at 0), and removes nothing
    when the effective start is at or past the end of the array.
-/

/-- HTTP responses the dashboard delete handlers can attempt to send. -/
inductive Resp where
  /-- Status 400, "Invalid ... index". -/
  | invalidIndex
  /-- Status 404, "Church not found". -/
  | notFound
  /-- Status 500, "Internal server error (invalid field type)". -/
  | invalidFieldType
  /-- Status 400, "Deacons/Trustees data not found or invalid". -/
  | dataNotFound
  /-- Status 200, success message. -/
  | success
  /-- Status 501, "Banner deletion not implemented yet". -/
  | notImplemented
  deriving DecidableEq, Repr

/-- The HTTP status code of each response. -/
def Resp.status : Resp → Nat
  | .invalidIndex => 400
  | .notFound => 404
  | .invalidFieldType => 500
  | .dataNotFound => 400
  | .success => 200
  | .notImplemented => 501

/-- JavaScript `parseInt(s, 10)`: optional leading whitespace and sign,
then a maximal run of decimal digits (trailing garbage ignored);
`none` models NaN (no digits found). -/
def jsParseInt (s : String) : Option Int :=
  let cs := s.data.dropWhile fun c => c = ' ' || c = '\t' || c = '\n' || c = '\r'
  let signAndRest : Int × List Char :=
    match cs with
    | '-' :: r => (-1, r)
    | '+' :: r => (1, r)
    | r => (1, r)
  let ds := signAndRest.2.takeWhile Char.isDigit
  if ds.isEmpty then none
  else some (signAndRest.1 * (ds.foldl (fun a c => a * 10 + (c.toNat - 48)) 0 : Nat))

/-- The element position JavaScript `splice(start, 1)` actually targets:
NaN coerces to 0; a negative start counts from the end, clamped at 0;
a start at or past the end (handled by `eraseIdx` being a no-op there)
removes nothing. -/
def jsSpliceStart (idx : Option Int) (len : Nat) : Nat :=
  match idx with
  | none => 0
  | some i => if i < 0 then ((len : Int) + i).toNat else i.toNat

/-- JavaScript `arr.splice(start, 1)` as a pure function on lists. -/
def jsSplice1 (l : List α) (idx : Option Int) : List α :=
  l.eraseIdx (jsSpliceStart idx l.length)

/-- What one run of a delete handler did.  `record` models the single
store slot the handler can touch (the church addressed by `churchId`):
`none` = no such record; `some fv` = record present with the addressed
array field resolved to `fv` (`fv = none` when the field does not hold
an array — for the securities handlers, when the securities block is
absent or its array is malformed). -/
structure DeleteOutcome (α : Type) where
  /-- every send attempted on the response, in program order; only the
  head is delivered to the client, any later attempt throws. -/
  attempts : List Resp
  /-- post-state of the addressed record slot. -/
  record : Option (Option (List α))
  /-- number of `church.save()` calls that completed. -/
  saves : Nat
  /-- number of `ChurchModel.findById` calls made. -/
  finds : Nat
  deriving DecidableEq, Repr

/-- The response the client actually receives (Express delivers the first
send; later sends throw). -/
def delivered (o : DeleteOutcome α) : Option Resp :=
  o.attempts.head?

/-- Embedding of `deleteNestedItem` (dashboardRoutes.ts lines 200-236),
used for the root-level fields gallery / songs / oldServices /
liveServices.  Control flow of the source, per case:
  1. `index = parseInt(indexStr, 10)`; on NaN it sends 400 but has no
     `return`, so execution continues;
  2. `findById`; missing record sends 404 and returns (if the NaN 400
     was already sent, this second send throws — same observable end);
  3. non-array field sends 500 and returns (throws after a NaN 400);
  4. bounds check `index < 0 || index >= array.length` sends 400 and
     returns — both comparisons are false for NaN, so the NaN path
     falls through;
  5. `array.splice(index, 1)` (NaN start coerces to 0), `church.save()`,
     then the 200 send (which throws on the NaN path, after the save). -/
def deleteNestedItem (indexStr : String) (record : Option (Option (List α))) :
    DeleteOutcome α :=
  match jsParseInt indexStr, record with
  | none, none =>
      -- 400 delivered, then the 404 send throws; no save.
      { attempts := [.invalidIndex, .notFound], record := none, saves := 0, finds := 1 }
  | some _, none =>
      -- 404 delivered; handler returns.
      { attempts := [.notFound], record := none, saves := 0, finds := 1 }
  | none, some none =>
      -- 400 delivered, then the 500 send throws; no save.
      { attempts := [.invalidIndex, .invalidFieldType], record := some none,
        saves := 0, finds := 1 }
  | some _, some none =>
      -- 500 delivered; handler returns.
      { attempts := [.invalidFieldType], record := some none, saves := 0, finds := 1 }
  | none, some (some arr) =>
      -- 400 delivered; bounds comparisons are false for NaN, so the
      -- element at position 0 is spliced out, the record is saved, and
      -- the final 200 send throws.
      { attempts := [.invalidIndex, .success], record := some (some (jsSplice1 arr none)),
        saves := 1, finds := 1 }
  | some i, some (some arr) =>
      if i < 0 || (arr.length : Int) ≤ i then
        -- 400 delivered; handler returns before the splice.
        { attempts := [.invalidIndex], record := some (some arr), saves := 0, finds := 1 }
      else
        -- in-bounds: splice, save, 200 delivered.
        { attempts := [.success], record := some (some (jsSplice1 arr (some i))),
          saves := 1, finds := 1 }

/-- Embedding of the deacon-deletion handler (dashboardRoutes.ts lines
258-281); the trustee handler (lines 284-306) is textually identical
modulo the field name, so this one definition models both.  `record`:
`none` = church missing; `some none` = securities block absent or its
deacons/trustees value is not an array; `some (some arr)` = the nested
array resolved to `arr`.

Persistence nuance: `securities` is declared `{ type: Object }` in
Space.ts (line 71), which Mongoose treats as a Mixed path.  In-place
mutations of a Mixed path are not change-tracked, and no
`markModified('securities')` call exists anywhere in the repository, so
`church.save()` here completes without writing anything: on EVERY path
of this handler the stored record is unchanged, and `record` (the
stored slot's post-state) equals the input.  The splice happens only on
the in-memory document and is discarded with the request.

Control flow of the source, per case:
  1. NaN index sends 400 with no `return`;
  2. missing church sends 404 and returns (throws after a NaN 400);
  3. absent/malformed securities sends 400 ("data not found or
     invalid") with NO `return` (throws instead if the NaN 400 was
     already sent); execution then dereferences
     `church.securities.deacons.length`, which throws a TypeError
     before any save;
  4. the bounds check sends 400 with NO `return`, so the in-memory
     splice and the (no-op) save still run, and the success send then
     throws;
  5. in-bounds: in-memory splice, no-op save, 200 delivered — the
     deletion is reported successful but never persisted. -/
def deleteSecurityItem (indexStr : String) (record : Option (Option (List α))) :
    DeleteOutcome α :=
  match jsParseInt indexStr, record with
  | none, none =>
      { attempts := [.invalidIndex, .notFound], record := none, saves := 0, finds := 1 }
  | some _, none =>
      { attempts := [.notFound], record := none, saves := 0, finds := 1 }
  | none, some none =>
      -- 400 (invalid index) delivered, then the dataNotFound send throws.
      { attempts := [.invalidIndex, .dataNotFound], record := some none,
        saves := 0, finds := 1 }
  | some _, some none =>
      -- dataNotFound 400 delivered; no return, then the TypeError on
      -- `.deacons.length` aborts the handler before any save.
      { attempts := [.dataNotFound], record := some none, saves := 0, finds := 1 }
  | none, some (some arr) =>
      -- 400 delivered; bounds comparisons false for NaN; in-memory
      -- splice at 0; save() completes but persists nothing (Mixed
      -- path); the success send throws.  Stored slot unchanged.
      { attempts := [.invalidIndex, .success], record := some (some arr),
        saves := 1, finds := 1 }
  | some i, some (some arr) =>
      if i < 0 || (arr.length : Int) ≤ i then
        -- 400 delivered, no `return`: the in-memory splice and the
        -- (no-op) save still run; the success send then throws.
        -- Stored slot unchanged.
        { attempts := [.invalidIndex, .success], record := some (some arr),
          saves := 1, finds := 1 }
      else
        -- in-bounds: 200 delivered, but the splice lives only on the
        -- in-memory document; the save persists nothing.
        { attempts := [.success], record := some (some arr),
          saves := 1, finds := 1 }

/-- Embedding of the banner-deletion handler (dashboardRoutes.ts lines
245-249): it only sends 501 and never touches the store. -/
def deleteBannerItem (_indexStr : String) (record : Option (Option (List α))) :
    DeleteOutcome α :=
  { attempts := [.notImplemented], record := record, saves := 0, finds := 0 }


/-! ## Authentication middleware (src/middleware/authenticateUser.ts) -/

/-- Verification errors thrown by `jwt.verify` in the `jsonwebtoken`
library.  In that library `TokenExpiredError` and `NotBeforeError` are
both subclasses of `JsonWebTokenError`, so an `instanceof
JsonWebTokenError` test is true for all of them. -/
inductive JwtError where
  /-- The `TokenExpiredError` (a subclass of `JsonWebTokenError`). -/
  | expired
  /-- The `NotBeforeError` (a subclass of `JsonWebTokenError`). -/
  | notActiveYet
  /-- plain `JsonWebTokenError`: structurally malformed token. -/
  | malformed
  /-- plain `JsonWebTokenError`: signature does not verify. -/
  | badSignature
  deriving DecidableEq, Repr

/-- Models `err instanceof jwt.JsonWebTokenError` — true for every verification
error, because the expired and not-before errors are subclasses. -/
def instanceOfJsonWebTokenError (_ : JwtError) : Bool := true

/-- Models `err instanceof jwt.TokenExpiredError`. -/
def instanceOfTokenExpiredError : JwtError → Bool
  | .expired => true
  | _ => false

/-- Failure classifications of the authentication middleware, one per
`AppError` it can construct (all are sent with status 401). -/
inductive AuthFail where
  /-- Message "You are not logged in. Please log in to get access.". -/
  | unauthenticated
  /-- Message "Invalid token. Please log in again.". -/
  | invalidToken
  /-- Message "Your token has expired. Please log in again.". -/
  | expiredToken
  /-- Message "Token verification failed.". -/
  | verifyFailed
  /-- Message "Invalid token payload.". -/
  | invalidPayload
  /-- Message "The user belonging to this token no longer exists.". -/
  | unknownSubject
  deriving DecidableEq, Repr

/-- The catch-cascade of authenticateUser.ts lines 45-55: the
`instanceof JsonWebTokenError` test comes FIRST, so (subclassing) it
also captures expired tokens; the `instanceof TokenExpiredError` branch
is tested second. -/
def classifyVerifyError (e : JwtError) : AuthFail :=
  if instanceOfJsonWebTokenError e then .invalidToken
  else if instanceOfTokenExpiredError e then .expiredToken
  else .verifyFailed

/-- JavaScript `a.startsWith(b)` on the underlying character lists. -/
def charsStartWith : List Char → List Char → Bool
  | _, [] => true
  | [], _ :: _ => false
  | c :: cs, p :: ps => c = p && charsStartWith cs ps

/-- JavaScript `s.startsWith(p)` for strings. -/
def jsStartsWith (s p : String) : Bool :=
  charsStartWith s.data p.data

/-- Accumulating worker for `jsSplitSpace`. -/
def splitSpaceAux : List Char → List Char → List String
  | [], acc => [String.mk acc.reverse]
  | c :: cs, acc =>
    if c = ' ' then String.mk acc.reverse :: splitSpaceAux cs []
    else splitSpaceAux cs (c :: acc)

/-- JavaScript `s.split(' ')`: cut at every single space character
(adjacent spaces yield empty segments, exactly as in JS). -/
def jsSplitSpace (s : String) : List String :=
  splitSpaceAux s.data []

/-- Token extraction, authenticateUser.ts lines 27-39:
`req.headers.authorization.startsWith('Bearer')` (NO trailing space)
guards `token = authorization.split(' ')[1]`; a missing or empty (JS
falsy) second segment then fails the `if (!token)` test. -/
def extractToken (authHeader : Option String) : Option String :=
  match authHeader with
  | none => none
  | some h =>
    if jsStartsWith h "Bearer" then
      match (jsSplitSpace h).get? 1 with
      | some t => if t = "" then none else some t
      | none => none
    else none

/-- An identity record as the middleware uses it (User model projection:
mongo id, email, admin flag). -/
structure UserRec where
  id : String
  email : String
  admin : Bool
  deriving DecidableEq, Repr

/-- Result of the authentication middleware: either a failure passed to
`next(AppError)` or success with `req.user = (id, email)` set. -/
inductive AuthResult where
  | failed (f : AuthFail)
  | passed (id : String) (email : String)
  deriving DecidableEq, Repr

/-- Embedding of `authenticateUser` (authenticateUser.ts lines 24-89).
`verify` models `jwt.verify` plus the payload-shape check of line 58:
`Sum.inl e` = verification threw `e`; `Sum.inr none` = verified but the
payload is not an object carrying an `id`; `Sum.inr (some subjectId)` =
verified with subject id.  `findUser` models `User.findById`.  The
second component records whether `jwt.verify` was ever invoked. -/
def authenticateUser (header : Option String)
    (verify : String → Sum JwtError (Option String))
    (findUser : String → Option UserRec) : AuthResult × Bool :=
  match extractToken header with
  | none => (.failed .unauthenticated, false)
  | some t =>
    match verify t with
    | .inl e => (.failed (classifyVerifyError e), true)
    | .inr none => (.failed .invalidPayload, true)
    | .inr (some subjectId) =>
      match findUser subjectId with
      | none => (.failed .unknownSubject, true)
      | some u => (.passed u.id u.email, true)

/-- Decisions of the `isAdmin` middleware. -/
inductive AdminDecision where
  /-- Status 401, "Authentication required." (`req.user` absent). -/
  | authRequired
  /-- Status 401, "User not found.". -/
  | userNotFound
  /-- Status 403, "You do not have permission to perform this action.". -/
  | forbidden
  /-- Calls `next()` — the operation is allowed. -/
  | allowed
  deriving DecidableEq, Repr

/-- Embedding of `isAdmin` (authenticateUser.ts lines 98-126): it takes
only the authenticated id from `req.user` and the current identity
store; it re-fetches the record and decides on the stored admin flag —
the token payload is not an input at all. -/
def isAdmin (reqUserId : Option String)
    (findUser : String → Option UserRec) : AdminDecision :=
  match reqUserId with
  | none => .authRequired
  | some uid =>
    match findUser uid with
    | none => .userNotFound
    | some u => if u.admin then .allowed else .forbidden

/-! ## Signup validation (src/utils/validationSchemas.ts,
src/middleware/validateRequest.ts) -/

/-- A raw signup request body: each field is present (`some`) or absent
(`none`); present values are strings, as sent by the client. -/
structure SignupBody where
  firstName : Option String
  lastName : Option String
  email : Option String
  password : Option String
  language : Option String
  role : Option String
  churchSelection : Option String
  deriving DecidableEq, Repr

/-- One Zod issue: the path of the offending field and its message. -/
structure Violation where
  path : List String
  message : String
  deriving DecidableEq, Repr

/-- The per-field checks of `signupSchema` (validationSchemas.ts lines
7-31), collected exhaustively in declaration order, with issue paths as
Zod reports them under the `{ body, query, params }` wrapper.  The email
format test of `z.string().email()` is abstracted as the parameter
`emailOk` (the library regex; no claim depends on its internals).
Messages with quote characters are paraphrased without them. -/
def perFieldIssues (emailOk : String → Bool) (b : SignupBody) : List Violation :=
  (match b.firstName with
   | none => [⟨["body", "firstName"], "First name is required"⟩]
   | some s => if s.length < 1 then [⟨["body", "firstName"], "First name cannot be empty"⟩] else []) ++
  (match b.lastName with
   | none => [⟨["body", "lastName"], "Last name is required"⟩]
   | some s => if s.length < 1 then [⟨["body", "lastName"], "Last name cannot be empty"⟩] else []) ++
  (match b.email with
   | none => [⟨["body", "email"], "Email is required"⟩]
   | some s => if emailOk s then [] else [⟨["body", "email"], "Invalid email address"⟩]) ++
  (match b.password with
   | none => [⟨["body", "password"], "Password is required"⟩]
   | some s => if s.length < 8 then [⟨["body", "password"], "Password must be at least 8 characters long"⟩] else []) ++
  (match b.language with
   | none => [⟨["body", "language"], "Language is required"⟩]
   | some s => if s = "en" || s = "fr" then [] else [⟨["body", "language"], "Language must be either en or fr"⟩]) ++
  (match b.role with
   | none => [⟨["body", "role"], "Role is required"⟩]
   | some s => if s = "user" || s = "pastor" || s = "IT" then [] else [⟨["body", "role"], "Role must be one of: user, pastor, IT"⟩])

/-- The cross-field refinement of `signupSchema` (lines 32-42), applied
to the object AFTER the `z.string().trim()` transform on
`churchSelection`: if role is pastor or IT, `churchSelection` must be
truthy and have a nonempty trim. -/
def signupRefineOk (b : SignupBody) : Bool :=
  match b.role with
  | some r =>
    if r = "pastor" || r = "IT" then
      match b.churchSelection.map String.trim with
      | none => false
      | some cs => !(cs = "") && 0 < cs.trim.length
    else true
  | none => true

/-- The refinement issue (message and `path: ['churchSelection']`,
prefixed by `body` under the request wrapper). -/
def churchSelectionViolation : Violation :=
  ⟨["body", "churchSelection"], "Church selection is required for pastors and IT."⟩

/-- Embedding of `signupSchema.parseAsync` as performed by
`validateRequest`: per-field checks run first and are collected
exhaustively; the `.refine` step runs ONLY when the underlying object
parse succeeded (Zod semantics for `ZodEffects`); on success the
`churchSelection` value carries the `trim` transform. -/
def validateSignup (emailOk : String → Bool) (b : SignupBody) :
    Except (List Violation) SignupBody :=
  match perFieldIssues emailOk b with
  | [] =>
    if signupRefineOk b then
      .ok { b with churchSelection := b.churchSelection.map String.trim }
    else
      .error [churchSelectionViolation]
  | issues => .error issues

/-- The signup route pipeline (authRoutes.ts: `validateRequest(signupSchema)`
runs before the controller): on a validation error the error goes to
`next` and the controller — abstracted as `handler`, the only code that
can write to the identity store — never runs, so the store is unchanged. -/
def signupPipeline (emailOk : String → Bool) (b : SignupBody)
    (handler : SignupBody → List UserRec → List UserRec)
    (store : List UserRec) : Except (List Violation) Unit × List UserRec :=
  match validateSignup emailOk b with
  | .error es => (.error es, store)
  | .ok v => (.ok (), handler v store)

/-! ## Public church listing (src/controllers/dashboardController.ts) -/

/-- Principal block of a church record (models/Space.ts). -/
structure Principal where
  pastor : String
  wife : String
  image : String
  description : String
  deriving DecidableEq, Repr

/-- A deacon or trustee entry (models/Space.ts). -/
structure SecurityMember where
  names : String
  descriptions : String
  image : String
  deriving DecidableEq, Repr

/-- The securities block (models/Space.ts). -/
structure Securities where
  deacons : List SecurityMember
  trustees : List SecurityMember
  deriving DecidableEq, Repr

/-- A past or live service record (models/Space.ts). -/
structure ServiceRec where
  title : String
  preacher : String
  sermon : String
  deriving DecidableEq, Repr

/-- A song record (models/Space.ts). -/
structure SongRec where
  title : String
  songUrl : String
  deriving DecidableEq, Repr

/-- A full church record as stored (models/Space.ts `ChurchDoc`). -/
structure ChurchRec where
  id : String
  name : String
  location : String
  image : String
  logo : String
  principal : Principal
  banner : List String
  gallery : List String
  securities : Securities
  oldServices : List ServiceRec
  liveServices : List ServiceRec
  songs : List SongRec
  userRef : String
  createdAt : Nat
  deriving DecidableEq, Repr

/-- The restricted projection returned by the public listing: only the
mongo id and the name. -/
structure PublicChurch where
  id : String
  name : String
  deriving DecidableEq, Repr

/-- Embedding of `getPublicChurchList` (dashboardController.ts lines
30-34): `ChurchModel.find(\x7b\x7d, '_id name')` — every stored record,
projected to the `_id` and `name` fields only. -/
def getPublicChurchList (store : List ChurchRec) : List PublicChurch :=
  store.map fun c => { id := c.id, name := c.name }

/-- Modelled from the spec's words (amended): the response the claimed
precondition cascade prescribes for the root-level handler, with (a)
weakened to "parses to an integer" and negativity moved into (d). -/
def specDeliveredRoot (idx : Option Int) (record : Option (Option (List α))) : Resp :=
  match idx with
  | none => .invalidIndex
  | some i =>
    match record with
    | none => .notFound
    | some none => .invalidFieldType
    | some (some arr) =>
      if i < 0 ∨ (arr.length : Int) ≤ i then .invalidIndex else .success

/-- Modelled from the spec's words (amended): the claimed cascade for
the deacons/trustees handlers, where an absent-or-malformed securities
block is answered 400 (data not found) in place of the 500. -/
def specDeliveredSecurity (idx : Option Int) (record : Option (Option (List α))) : Resp :=
  match idx with
  | none => .invalidIndex
  | some i =>
    match record with
    | none => .notFound
    | some none => .dataNotFound
    | some (some arr) =>
      if i < 0 ∨ (arr.length : Int) ≤ i then .invalidIndex else .success

/-- Every failure the authentication middleware constructs carries HTTP
status 401 (each `AppError` in authenticateUser.ts is built with 401). -/
def AuthFail.status (_ : AuthFail) : Nat := 401

/-- The HTTP status of each `isAdmin` failure (none for `allowed`,
which falls through to the handler). -/
def AdminDecision.statusCode : AdminDecision → Option Nat
  | .authRequired => some 401
  | .userNotFound => some 401
  | .forbidden => some 403
  | .allowed => none

/-- The five issues produced for a signup body with role pastor and
every other field absent. -/
def pastorCexIssues : List Violation :=
  [⟨["body", "firstName"], "First name is required"⟩,
   ⟨["body", "lastName"], "Last name is required"⟩,
   ⟨["body", "email"], "Email is required"⟩,
   ⟨["body", "password"], "Password is required"⟩,
   ⟨["body", "language"], "Language is required"⟩]

/-- A fully populated church record used to witness C9. -/
def sampleChurch : ChurchRec :=
  { id := "id1", name := "Name", location := "Loc", image := "img", logo := "logo",
    principal := ⟨"p", "w", "i", "d"⟩, banner := ["b"], gallery := ["g"],
    securities := ⟨[⟨"d1", "x", "y"⟩], [⟨"t1", "x", "y"⟩]⟩,
    oldServices := [⟨"s", "p", "m"⟩], liveServices := [⟨"s2", "p2", "m2"⟩],
    songs := [⟨"song", "url"⟩], userRef := "u1", createdAt := 0 }

/-! ## Sanity checks of the JavaScript primitive models -/

example : jsParseInt "5" = some 5 := by decide
example : jsParseInt "abc" = none := by decide
example : jsParseInt "-1" = some (-1) := by decide
example : jsParseInt "12x" = some 12 := by decide
example : jsParseInt "" = none := by decide
example : jsSplice1 [10, 20, 30] (some 1) = [10, 30] := by decide
example : jsSplice1 [10, 20, 30] none = [20, 30] := by decide
example : jsSplice1 [10, 20, 30] (some (-1)) = [10, 20] := by decide
example : jsSplice1 [10, 20, 30] (some 5) = [10, 20, 30] := by decide

/-! ## Helper lemmas about the nested-deletion handlers -/

/-- An in-bounds parseable index on a root-level array field: splice the
element out, save once, deliver 200. -/
lemma deleteNestedItem_inBounds (s : String) (arr : List α) (i : Int)
    (hp : jsParseInt s = some i) (h0 : 0 ≤ i) (hl : i.toNat < arr.length) :
    deleteNestedItem s (some (some arr)) =
      { attempts := [Resp.success],
        record := some (some (arr.take i.toNat ++ arr.drop (i.toNat + 1))),
        saves := 1, finds := 1 } := by
  have hcond : ¬(i < 0 || (arr.length : Int) ≤ i) = true := by
    simp only [Bool.or_eq_true, decide_eq_true_eq, not_or]
    omega
  have hsplice : jsSplice1 arr (some i) = arr.take i.toNat ++ arr.drop (i.toNat + 1) := by
    simp only [jsSplice1, jsSpliceStart]
    rw [if_neg (by omega)]
    exact List.eraseIdx_eq_take_drop_succ arr i.toNat
  unfold deleteNestedItem
  rw [hp]
  simp only [if_neg hcond, hsplice]

/-- An out-of-bounds (negative or too large) parseable index on a
root-level array field: deliver 400, no write, record unchanged. -/
lemma deleteNestedItem_outOfBounds (s : String) (arr : List α) (i : Int)
    (hp : jsParseInt s = some i) (hob : i < 0 ∨ (arr.length : Int) ≤ i) :
    deleteNestedItem s (some (some arr)) =
      { attempts := [Resp.invalidIndex], record := some (some arr),
        saves := 0, finds := 1 } := by
  have hcond : (i < 0 || (arr.length : Int) ≤ i) = true := by
    simp only [Bool.or_eq_true, decide_eq_true_eq]
    omega
  unfold deleteNestedItem
  rw [hp]
  simp only [if_pos hcond]

/-! ## Claim theorems: nested deletion -/

/-- C1: the claim says a nested-deletion request with an index string
that does not parse to a non-negative integer (or is out of bounds)
fails with InvalidIndex 400 and performs NO write.  The root-level
handler violates this: its 400 send after the NaN check has no
`return`, and the root-level fields are change-tracked Mongoose arrays,
so an unparseable index such as "abc" on a stored sequence [a,b,c]
still splices out element 0 (a NaN splice start coerces to 0) and
persists the shrunk record — a store write behind a delivered 400.
The last two conjuncts contrast the deacons/trustees handler: the same
missing `return` exists there, but `securities` is a Mixed path whose
in-place splice `save()` never persists, so at index "-1" the stored
record does survive unchanged (only the root-level input refutes the
claim). -/
theorem C1_invalid_index_still_writes :
    delivered (deleteNestedItem "abc" (some (some [0, 1, 2]))) = some Resp.invalidIndex ∧
    Resp.invalidIndex.status = 400 ∧
    (deleteNestedItem "abc" (some (some [0, 1, 2]))).saves = 1 ∧
    (deleteNestedItem "abc" (some (some [0, 1, 2]))).record = some (some [1, 2]) ∧
    delivered (deleteSecurityItem "-1" (some (some [0, 1, 2]))) = some Resp.invalidIndex ∧
    (deleteSecurityItem "-1" (some (some [0, 1, 2]))).record = some (some [0, 1, 2]) := by
  decide

/-- C2 counterexample: the claim orders precondition (a) as "the index
string parses to a NON-NEGATIVE integer, else InvalidIndex 400" before
(b) "record exists, else 404".  The code only tests NaN at step (a);
negativity is folded into the bounds check (d).  So the index string
"-1" — which does not parse to a non-negative integer — against a
missing record is answered 404 NotFound, not the 400 InvalidIndex the
claimed order requires. -/
theorem C2_counterexample :
    jsParseInt "-1" = some (-1) ∧
    delivered (deleteNestedItem "-1" (none : Option (Option (List Nat)))) =
      some Resp.notFound ∧
    Resp.notFound.status = 404 ∧
    Resp.notFound ≠ Resp.invalidIndex := by
  decide


/-- C2 (amended): the response actually delivered to the client follows
the precondition cascade — (a) index parses to an integer, else
InvalidIndex 400; (b) record exists, else NotFound 404; (c) field is an
array, else InvalidFieldType 500 (for deacons/trustees: absent or
malformed securities is answered 400 "data not found or invalid"
instead); (d) index non-negative and within bounds, else InvalidIndex
400 — with earlier checks taking precedence. -/
theorem C2_delivered_follows_cascade (α : Type) (s : String)
    (record : Option (Option (List α))) :
    delivered (deleteNestedItem s record) =
      some (specDeliveredRoot (jsParseInt s) record) ∧
    delivered (deleteSecurityItem s record) =
      some (specDeliveredSecurity (jsParseInt s) record) := by
  unfold deleteNestedItem deleteSecurityItem specDeliveredRoot specDeliveredSecurity delivered
  cases hp : jsParseInt s with
  | none =>
    rcases record with _ | (_ | arr) <;> simp
  | some i =>
    rcases record with _ | (_ | arr)
    · simp
    · simp
    · by_cases h1 : i < 0
      · simp [h1]
      · by_cases h2 : (arr.length : Int) ≤ i
        · simp [h1, h2]
        · simp [h1, h2]


/-- C3: for an existing record whose allow-listed root-level field holds
a sequence, and an index string parsing in-bounds, the nested deletion
removes exactly the element at that position (subsequent elements shift
left, order preserved: the result is `take i ++ drop (i+1)`), saves the
parent record exactly once, and delivers the 200 success response. -/
theorem C3_in_bounds_delete (α : Type) (s : String) (arr : List α) (i : Int)
    (hp : jsParseInt s = some i) (h0 : 0 ≤ i) (hl : i.toNat < arr.length) :
    (deleteNestedItem s (some (some arr))).record =
      some (some (arr.take i.toNat ++ arr.drop (i.toNat + 1))) ∧
    (deleteNestedItem s (some (some arr))).saves = 1 ∧
    delivered (deleteNestedItem s (some (some arr))) = some Resp.success ∧
    Resp.success.status = 200 := by
  rw [deleteNestedItem_inBounds s arr i hp h0 hl]
  exact ⟨rfl, rfl, rfl, rfl⟩

/-- Witness for C3 at the spec's own example: sequence [a,b,c] with
index "1" becomes [a,c], saved once, 200 delivered. -/
theorem C3_in_bounds_delete_witness :
    jsParseInt "1" = some 1 ∧
    (0 : Int) ≤ 1 ∧
    (1 : Int).toNat < ([10, 20, 30] : List Nat).length ∧
    (deleteNestedItem "1" (some (some ([10, 20, 30] : List Nat)))).record =
      some (some [10, 30]) ∧
    ((deleteNestedItem "1" (some (some ([10, 20, 30] : List Nat)))).record =
        some (some (([10, 20, 30] : List Nat).take (1 : Int).toNat ++
          ([10, 20, 30] : List Nat).drop ((1 : Int).toNat + 1))) ∧
      (deleteNestedItem "1" (some (some ([10, 20, 30] : List Nat)))).saves = 1 ∧
      delivered (deleteNestedItem "1" (some (some ([10, 20, 30] : List Nat)))) =
        some Resp.success ∧
      Resp.success.status = 200) :=
  ⟨by decide, by decide, by decide, by decide,
    C3_in_bounds_delete Nat "1" [10, 20, 30] 1 (by decide) (by decide) (by decide)⟩

/-- C8: the nested deletion is not idempotent.  First conjunct: a
concrete state and index where running the operation twice differs from
running it once ([1,2] at index "0": once gives [2], twice gives []).
Second conjunct: after a successful removal (hypotheses pin `arr1` as
the stored sequence the first run left), repeating the same index
either removes the element now at that position (when still in bounds)
or delivers InvalidIndex with no write (when the sequence shrank to at
most the index). -/
theorem C8_not_idempotent :
    ((deleteNestedItem "0" (some (some ([1, 2] : List Nat)))).record ≠
      (deleteNestedItem "0"
        (deleteNestedItem "0" (some (some ([1, 2] : List Nat)))).record).record) ∧
    (∀ (α : Type) (s : String) (i : Int) (arr arr1 : List α),
      jsParseInt s = some i → 0 ≤ i → i.toNat < arr.length →
      some (some arr1) = (deleteNestedItem s (some (some arr))).record →
      ((i.toNat < arr1.length →
          deleteNestedItem s (some (some arr1)) =
            { attempts := [Resp.success],
              record := some (some (arr1.take i.toNat ++ arr1.drop (i.toNat + 1))),
              saves := 1, finds := 1 }) ∧
        (arr1.length ≤ i.toNat →
          deleteNestedItem s (some (some arr1)) =
            { attempts := [Resp.invalidIndex], record := some (some arr1),
              saves := 0, finds := 1 }))) := by
  constructor
  · decide
  · intro α s i arr arr1 hp h0 _hl _harr1
    constructor
    · intro hin
      exact deleteNestedItem_inBounds s arr1 i hp h0 hin
    · intro hout
      exact deleteNestedItem_outOfBounds s arr1 i hp (Or.inr (by omega))

/-- Witness for C8's second conjunct at [1,2], index "0": the first run
leaves [2]; repeating removes the element now at position 0. -/
theorem C8_not_idempotent_witness :
    jsParseInt "0" = some 0 ∧
    (0 : Int) ≤ 0 ∧
    (0 : Int).toNat < ([1, 2] : List Nat).length ∧
    some (some [2]) = (deleteNestedItem "0" (some (some ([1, 2] : List Nat)))).record ∧
    (((0 : Int).toNat < ([2] : List Nat).length →
        deleteNestedItem "0" (some (some ([2] : List Nat))) =
          { attempts := [Resp.success],
            record := some (some (([2] : List Nat).take (0 : Int).toNat ++
              ([2] : List Nat).drop ((0 : Int).toNat + 1))),
            saves := 1, finds := 1 }) ∧
      (([2] : List Nat).length ≤ (0 : Int).toNat →
        deleteNestedItem "0" (some (some ([2] : List Nat))) =
          { attempts := [Resp.invalidIndex], record := some (some [2]),
            saves := 0, finds := 1 })) :=
  ⟨by decide, by decide, by decide, by decide,
    C8_not_idempotent.2 Nat "0" 0 [1, 2] [2] (by decide) (by decide) (by decide) (by decide)⟩

/-- C10: the banner-image deletion endpoint always answers 501 Not
Implemented, reads no record and writes nothing, for every index string
and store state. -/
theorem C10_banner_not_implemented (α : Type) (s : String)
    (record : Option (Option (List α))) :
    delivered (deleteBannerItem s record) = some Resp.notImplemented ∧
    Resp.notImplemented.status = 501 ∧
    (deleteBannerItem s record).finds = 0 ∧
    (deleteBannerItem s record).saves = 0 ∧
    (deleteBannerItem s record).record = record :=
  ⟨rfl, rfl, rfl, rfl, rfl⟩

/-! ## Claim theorems: authentication and authorization -/


/-- C4: the claim requires an expired credential to be classified with
the distinct ExpiredCredential outcome.  The code checks `err
instanceof JsonWebTokenError` FIRST, and in the jsonwebtoken library
`TokenExpiredError` is a subclass of `JsonWebTokenError`, so an expired
token takes the InvalidCredential branch and the expired branch is
unreachable for every verification error.  Structural and signature
failures are classified InvalidCredential as the claim says; the final
conjunct runs the full middleware on an expired verification. -/
theorem C4_expired_token_misclassified :
    classifyVerifyError JwtError.malformed = AuthFail.invalidToken ∧
    classifyVerifyError JwtError.badSignature = AuthFail.invalidToken ∧
    AuthFail.invalidToken.status = 401 ∧
    classifyVerifyError JwtError.expired = AuthFail.invalidToken ∧
    AuthFail.invalidToken ≠ AuthFail.expiredToken ∧
    (∀ e : JwtError, classifyVerifyError e ≠ AuthFail.expiredToken) ∧
    authenticateUser (some "Bearer tok") (fun _ => Sum.inl JwtError.expired)
        (fun _ => none) =
      (AuthResult.failed AuthFail.invalidToken, true) := by
  refine ⟨rfl, rfl, rfl, rfl, by decide, ?_, by decide⟩
  intro e
  cases e <;> decide

/-- C5 counterexample: the claim says every Authorization header that
does not begin with the prefix "Bearer " (with the trailing space) is
rejected with Unauthenticated before any verification.  The code only
tests the prefix "Bearer" (no space) and then takes the second
space-separated segment, so the header "Bearerx tok" — which does not
begin with "Bearer " — extracts the token "tok", attempts verification,
and (with a verifier and store that accept it) authenticates instead of
being rejected. -/
theorem C5_counterexample :
    (jsStartsWith "Bearerx tok" "Bearer " = false) ∧
    extractToken (some "Bearerx tok") = some "tok" ∧
    authenticateUser (some "Bearerx tok") (fun _ => Sum.inr (some "u1"))
        (fun uid => if uid = "u1" then some ⟨"u1", "a@b.co", false⟩ else none) =
      (AuthResult.passed "u1" "a@b.co", true) := by
  decide

/-- C5 (amended): the Authenticator rejects with the single
Unauthenticated classification (401), before any credential
verification is attempted, exactly when the Authorization header is
absent, or does not begin with the prefix "Bearer" (no trailing
space), or has no nonempty second space-separated segment. -/
theorem C5_unauthenticated_rejection (h : Option String)
    (verify : String → Sum JwtError (Option String))
    (findUser : String → Option UserRec)
    (hbad : h = none ∨ ∃ s, h = some s ∧
      (jsStartsWith s "Bearer" = false ∨ (jsSplitSpace s).get? 1 = none ∨
        (jsSplitSpace s).get? 1 = some "")) :
    authenticateUser h verify findUser =
      (AuthResult.failed AuthFail.unauthenticated, false) ∧
    AuthFail.unauthenticated.status = 401 := by
  have hext : extractToken h = none := by
    rcases hbad with rfl | ⟨s, rfl, hcase⟩
    · rfl
    · unfold extractToken
      dsimp only
      rcases hcase with hns | h1 | h1
      · rw [hns]
        rfl
      · by_cases hsw : jsStartsWith s "Bearer"
        · rw [hsw, h1]
          rfl
        · rw [Bool.not_eq_true] at hsw
          rw [hsw]
          rfl
      · by_cases hsw : jsStartsWith s "Bearer"
        · rw [hsw, h1]
          rfl
        · rw [Bool.not_eq_true] at hsw
          rw [hsw]
          rfl
  refine ⟨?_, rfl⟩
  unfold authenticateUser
  rw [hext]

/-- Witness for C5 at the header "Token abc": it does not start with
"Bearer", and the middleware rejects Unauthenticated without invoking
the verifier. -/
theorem C5_unauthenticated_rejection_witness :
    jsStartsWith "Token abc" "Bearer" = false ∧
    (authenticateUser (some "Token abc") (fun _ => Sum.inr none) (fun _ => none) =
        (AuthResult.failed AuthFail.unauthenticated, false) ∧
      AuthFail.unauthenticated.status = 401) :=
  ⟨by decide,
    C5_unauthenticated_rejection (some "Token abc") (fun _ => Sum.inr none)
      (fun _ => none)
      (Or.inr ⟨"Token abc", rfl, Or.inl (by decide)⟩)⟩

/-- C6: the elevation check re-fetches the identity by the
authenticated id and decides solely on the stored admin flag: a missing
identity is a 401, a false flag a 403 (InsufficientPrivilege), a true
flag allows.  The flip conjunct shows that after the stored flag is
flipped to true, the same authenticated id (hence a credential issued
before the flip) passes; the final conjunct shows the decision depends
only on what the store currently holds for that id — token contents
are not an input to `isAdmin` at all. -/
theorem C6_elevation_refetch (uid : String) (findUser : String → Option UserRec) :
    (findUser uid = none →
      isAdmin (some uid) findUser = AdminDecision.userNotFound ∧
      AdminDecision.userNotFound.statusCode = some 401) ∧
    (∀ u, findUser uid = some u → u.admin = false →
      isAdmin (some uid) findUser = AdminDecision.forbidden ∧
      AdminDecision.forbidden.statusCode = some 403) ∧
    (∀ u, findUser uid = some u → u.admin = true →
      isAdmin (some uid) findUser = AdminDecision.allowed) ∧
    (∀ u, findUser uid = some u → u.admin = false →
      isAdmin (some uid)
          (fun x => if x = uid then some { u with admin := true } else findUser x) =
        AdminDecision.allowed) ∧
    (∀ g : String → Option UserRec, g uid = findUser uid →
      isAdmin (some uid) g = isAdmin (some uid) findUser) := by
  refine ⟨?_, ?_, ?_, ?_, ?_⟩
  · intro h
    unfold isAdmin
    dsimp only
    rw [h]
    exact ⟨rfl, rfl⟩
  · intro u hu hadm
    unfold isAdmin
    dsimp only
    rw [hu]
    exact ⟨by simp [hadm], rfl⟩
  · intro u hu hadm
    unfold isAdmin
    dsimp only
    rw [hu]
    simp [hadm]
  · intro u hu hadm
    unfold isAdmin
    simp
  · intro g hg
    unfold isAdmin
    dsimp only
    rw [hg]

/-- Witness for C6: a store where "u1" has the admin flag false yields
403; the same id against the store after the approval flip yields
allowed. -/
theorem C6_elevation_refetch_witness :
    (isAdmin (some "u1")
        (fun x => if x = "u1" then some ⟨"u1", "e@x.co", false⟩ else none) =
      AdminDecision.forbidden ∧
      AdminDecision.forbidden.statusCode = some 403) ∧
    isAdmin (some "u1")
        (fun x => if x = "u1" then some { (⟨"u1", "e@x.co", false⟩ : UserRec) with admin := true }
          else (fun x => if x = "u1" then some ⟨"u1", "e@x.co", false⟩ else none) x) =
      AdminDecision.allowed :=
  ⟨(C6_elevation_refetch "u1"
      (fun x => if x = "u1" then some ⟨"u1", "e@x.co", false⟩ else none)).2.1
      ⟨"u1", "e@x.co", false⟩ (by decide) rfl,
    (C6_elevation_refetch "u1"
      (fun x => if x = "u1" then some ⟨"u1", "e@x.co", false⟩ else none)).2.2.2.1
      ⟨"u1", "e@x.co", false⟩ (by decide) rfl⟩

/-! ## Claim theorems: signup validation and public listing -/

/-- No per-field check of the signup schema ever reports on the
affiliation field: every per-field issue path names one of the six
other fields. -/
lemma perFieldIssues_no_churchSelection (emailOk : String → Bool) (b : SignupBody) :
    ∀ v ∈ perFieldIssues emailOk b, "churchSelection" ∉ v.path := by
  intro v hv
  rcases b with ⟨f1, f2, f3, f4, f5, f6, f7⟩
  unfold perFieldIssues at hv
  simp only [List.mem_append] at hv
  rcases hv with ((((hv | hv) | hv) | hv) | hv) | hv
  · rcases f1 with _ | s <;> dsimp only at hv
    · rw [List.mem_singleton] at hv
      subst hv
      decide
    · by_cases hc : s.length < 1
      · rw [if_pos hc, List.mem_singleton] at hv
        subst hv
        decide
      · rw [if_neg hc] at hv
        exact absurd hv (List.not_mem_nil v)
  · rcases f2 with _ | s <;> dsimp only at hv
    · rw [List.mem_singleton] at hv
      subst hv
      decide
    · by_cases hc : s.length < 1
      · rw [if_pos hc, List.mem_singleton] at hv
        subst hv
        decide
      · rw [if_neg hc] at hv
        exact absurd hv (List.not_mem_nil v)
  · rcases f3 with _ | s <;> dsimp only at hv
    · rw [List.mem_singleton] at hv
      subst hv
      decide
    · by_cases hc : emailOk s = true
      · rw [if_pos hc] at hv
        exact absurd hv (List.not_mem_nil v)
      · rw [if_neg hc, List.mem_singleton] at hv
        subst hv
        decide
  · rcases f4 with _ | s <;> dsimp only at hv
    · rw [List.mem_singleton] at hv
      subst hv
      decide
    · by_cases hc : s.length < 8
      · rw [if_pos hc, List.mem_singleton] at hv
        subst hv
        decide
      · rw [if_neg hc] at hv
        exact absurd hv (List.not_mem_nil v)
  · rcases f5 with _ | s <;> dsimp only at hv
    · rw [List.mem_singleton] at hv
      subst hv
      decide
    · by_cases hc : (s = "en" || s = "fr") = true
      · rw [if_pos hc] at hv
        exact absurd hv (List.not_mem_nil v)
      · rw [if_neg hc, List.mem_singleton] at hv
        subst hv
        decide
  · rcases f6 with _ | s <;> dsimp only at hv
    · rw [List.mem_singleton] at hv
      subst hv
      decide
    · by_cases hc : (s = "user" || s = "pastor" || s = "IT") = true
      · rw [if_pos hc] at hv
        exact absurd hv (List.not_mem_nil v)
      · rw [if_neg hc, List.mem_singleton] at hv
        subst hv
        decide


/-- C7 counterexample: the claim says EVERY pastor/IT payload with a
missing affiliation fails with a violation naming the affiliation
field.  But Zod runs `.refine` only when the base object parse
succeeds, so a pastor payload with a missing affiliation AND any other
per-field failure (here: everything else absent) fails with only the
per-field violations — none of which names churchSelection. -/
theorem C7_counterexample :
    validateSignup (fun _ => false)
        ⟨none, none, none, none, none, some "pastor", none⟩ =
      Except.error pastorCexIssues ∧
    pastorCexIssues ≠ [] ∧
    ∀ v ∈ pastorCexIssues, "churchSelection" ∉ v.path := by
  refine ⟨rfl, by decide, by decide⟩

/-- C7 (amended): for a pastor/IT payload whose OTHER per-field checks
all pass, a missing-or-blank affiliation makes validation fail with
exactly the violation whose path names the affiliation field, and the
store is unchanged (the controller never runs); and for the
non-privileged role ("user"), no validation failure ever carries a
violation naming the affiliation field. -/
theorem C7_affiliation_rule (emailOk : String → Bool) (b : SignupBody)
    (handler : SignupBody → List UserRec → List UserRec) (store : List UserRec) :
    ((b.role = some "pastor" ∨ b.role = some "IT") →
      perFieldIssues emailOk b = [] →
      (b.churchSelection = none ∨ b.churchSelection.map String.trim = some "") →
      validateSignup emailOk b = Except.error [churchSelectionViolation] ∧
      "churchSelection" ∈ churchSelectionViolation.path ∧
      signupPipeline emailOk b handler store =
        (Except.error [churchSelectionViolation], store)) ∧
    (b.role = some "user" →
      ∀ issues, validateSignup emailOk b = Except.error issues →
        ∀ v ∈ issues, "churchSelection" ∉ v.path) := by
  constructor
  · intro hrole hpf hcs
    have href : signupRefineOk b = false := by
      unfold signupRefineOk
      rcases hrole with h | h <;> rw [h] <;> dsimp only <;>
        rw [if_pos (by decide)] <;>
        rcases hcs with h2 | h2 <;> rw [h2] <;> rfl
    have hval : validateSignup emailOk b = Except.error [churchSelectionViolation] := by
      unfold validateSignup
      rw [hpf, href]
      rfl
    refine ⟨hval, by decide, ?_⟩
    unfold signupPipeline
    rw [hval]
  · intro hrole issues hval v hv
    unfold validateSignup at hval
    cases hpf : perFieldIssues emailOk b with
    | nil =>
      rw [hpf] at hval
      have href : signupRefineOk b = true := by
        unfold signupRefineOk
        rw [hrole]
        dsimp only
        rw [if_neg (by decide)]
      rw [href] at hval
      exact absurd hval (by simp)
    | cons a l =>
      rw [hpf] at hval
      dsimp only at hval
      have hi : issues = a :: l := by
        cases hval
        rfl
      subst hi
      exact perFieldIssues_no_churchSelection emailOk b v (hpf ▸ hv)

/-- Witness for C7 (amended): a pastor signup whose other fields are
all valid and whose affiliation is absent fails with exactly the
churchSelection violation, and the store is untouched. -/
theorem C7_affiliation_rule_witness :
    validateSignup (fun _ => true)
        ⟨some "A", some "B", some "e@x.co", some "12345678", some "en",
          some "pastor", none⟩ =
      Except.error [churchSelectionViolation] ∧
    "churchSelection" ∈ churchSelectionViolation.path ∧
    signupPipeline (fun _ => true)
        ⟨some "A", some "B", some "e@x.co", some "12345678", some "en",
          some "pastor", none⟩
        (fun _ st => st) [] =
      (Except.error [churchSelectionViolation], []) :=
  (C7_affiliation_rule (fun _ => true)
      ⟨some "A", some "B", some "e@x.co", some "12345678", some "en",
        some "pastor", none⟩
      (fun _ st => st) []).1 (Or.inl rfl) (by decide) (Or.inl rfl)

/-- C9: every element of the public church listing is exactly the
(id, name) projection of some stored record — no other field of the
backing record appears, whatever the store contains (the `PublicChurch`
response type has no other field to carry one, and the listing takes no
caller identity at all). -/
theorem C9_public_projection (store : List ChurchRec) (x : PublicChurch)
    (hx : x ∈ getPublicChurchList store) :
    ∃ c, c ∈ store ∧ x = { id := c.id, name := c.name } := by
  unfold getPublicChurchList at hx
  rcases List.mem_map.mp hx with ⟨c, hc, rfl⟩
  exact ⟨c, hc, rfl⟩


/-- Witness for C9 on a record with every field populated: the listing
element is exactly the id/name projection. -/
theorem C9_public_projection_witness :
    (⟨"id1", "Name"⟩ : PublicChurch) ∈ getPublicChurchList [sampleChurch] ∧
    ∃ c, c ∈ [sampleChurch] ∧
      (⟨"id1", "Name"⟩ : PublicChurch) = { id := c.id, name := c.name } :=
  ⟨by decide, C9_public_projection [sampleChurch] ⟨"id1", "Name"⟩ (by decide)⟩
